import Mathlib

/-!
Verification of the core subsystems of the AI Overlay Assistant repository:
the secure credential vault (`src/services/secureStorage.js`), the two
backend clients (`src/services/ollamaService.js` and the Gemini client),
the clipboard monitors (`src/services/clipboardMonitor.js` and its adaptive
variant), and the orchestrator routing in `src/main.js`.

Embedding conventions:
* JavaScript strings are Lean `String`s; the JS string methods used by the
  code (`trim`, `includes`, `startsWith`, `toLowerCase`, `length`) are
  re-implemented below over `String.data` so that all definitions reduce
  inside the kernel.  `length` counts characters (the repository only ever
  compares lengths of ordinary text, where JS UTF-16 length agrees).
* JS timestamps (`Date.now()`) are modelled as `Int` milliseconds; the
  adaptive-polling interval arithmetic (which multiplies by 1.5 / 0.8 / 0.7)
  is modelled over `ℚ`, an exact model of the float arithmetic on the
  magnitudes involved.
* Electron platform primitives that are not part of the repository
  (`safeStorage.encryptString` / `decryptString`, `JSON.parse`) are taken
  as parameters: encryption produces a byte buffer (`List Byte`) and
  decryption / parsing are partial (`Option`), modelling the fact that the
  JS originals throw on failure and the callers catch.
* Node `Buffer.toString('latin1')` / `Buffer.from(s, 'latin1')` are
  modelled concretely (`latin1Encode` / `latin1Decode`): latin1 maps byte
  `b` to the character with code point `b`, and each character back to its
  code point modulo 256.
-/

/-- The whitespace class of the JS `\s` regex escape and of `String.prototype.trim`
(restricted to the characters that can actually occur in the repository's data). -/
def isJsSpace (c : Char) : Bool :=
  c = ' ' ∨ c = '\t' ∨ c = '\n' ∨ c = '\r' ∨ c = '\x0b' ∨ c = '\x0c' ∨ c = '\xa0'

/-- Drop leading and trailing JS whitespace from a character list. -/
def trimChars (cs : List Char) : List Char :=
  ((cs.dropWhile isJsSpace).reverse.dropWhile isJsSpace).reverse

/-- Model of `String.prototype.trim`. -/
def jsTrim (s : String) : String :=
  ⟨trimChars s.data⟩

/-- Contiguous-substring test: `containsSub hay needle` holds when `needle`
occurs contiguously in `hay`; model of `String.prototype.includes` (on `.data`). -/
def containsSub (hay needle : List Char) : Bool :=
  if needle.isPrefixOf hay then true
  else
    match hay with
    | [] => false
    | _ :: t => containsSub t needle

/-- Model of `String.prototype.includes`. -/
def jsIncludes (s sub : String) : Bool :=
  containsSub s.data sub.data

/-- Model of `String.prototype.startsWith`. -/
def jsStartsWith (s p : String) : Bool :=
  p.data.isPrefixOf s.data

/-- Model of the JS `String.prototype.length` (character count). -/
def jsLength (s : String) : Nat :=
  s.data.length

/-- ASCII lower-casing of one character (the repository only lower-cases
candidate API keys, which are ASCII). -/
def jsLowerChar (c : Char) : Char :=
  if 'A' ≤ c ∧ c ≤ 'Z' then Char.ofNat (c.toNat + 32) else c

/-- Model of `String.prototype.toLowerCase`. -/
def jsToLower (s : String) : String :=
  ⟨s.data.map jsLowerChar⟩

/-- A byte of a Node `Buffer`. -/
abbrev Byte := Fin 256

/-- The latin1 character for a byte: code point `b`. -/
def byteToChar (b : Byte) : Char :=
  ⟨UInt32.ofNat b.val, Or.inl (by
    have h := b.isLt
    have he : (UInt32.ofNat b.val).toNat = b.val % UInt32.size := rfl
    have hm : b.val % UInt32.size = b.val :=
      Nat.mod_eq_of_lt (Nat.lt_trans h (by norm_num [UInt32.size]))
    rw [he, hm]
    omega)⟩

/-- The byte a character is read back as by `Buffer.from(s, 'latin1')`:
its code point modulo 256. -/
def charToByte (c : Char) : Byte :=
  ⟨c.toNat % 256, Nat.mod_lt _ (by omega)⟩

/-- Model of `buffer.toString('latin1')` (secureStorage.js line 208). -/
def latin1Encode (bs : List Byte) : String :=
  ⟨bs.map byteToChar⟩

/-- Model of `Buffer.from(encryptedString, 'latin1')` (secureStorage.js line 261). -/
def latin1Decode (s : String) : List Byte :=
  s.data.map charToByte

namespace SecureStorage

/-- The electron-store persistence layer: a key/value map from names to the
serialized (string) values; `none` models an absent key. -/
def Store := String → Option String

/-- Model of `this.store.set(k, v)`. -/
def storeSet (st : Store) (k v : String) : Store :=
  fun k' => if k' = k then some v else st k'

/-- Result record of `validateApiKeyFormat` (secureStorage.js lines 466-522). -/
structure ValidationResult where
  isValid : Bool
  errors : List String
  warnings : List String
deriving DecidableEq, Repr

/-- The character whitelist `/^[A-Za-z0-9_-]+$/` of secureStorage.js line 499. -/
def isKeyChar (c : Char) : Bool :=
  c.isAlphanum ∨ c = '_' ∨ c = '-'

/-- Shallow embedding of `SecureStorageService.validateApiKeyFormat`
(secureStorage.js lines 466-522).  The `typeof apiKey !== 'string'` branch
cannot fire in the embedding because the argument is typed as a string, and
`!apiKey` on a string means the string is empty. -/
def validateApiKeyFormat (apiKey : String) : ValidationResult :=
  if apiKey = "" then
    ⟨false, ["API key must be a non-empty string"], []⟩
  else
    let trimmedKey := jsTrim apiKey
    if jsLength trimmedKey < 20 then
      ⟨false, ["API key is too short (minimum 20 characters)"], []⟩
    else
      let warnings := if 100 < jsLength trimmedKey then ["API key is unusually long"] else []
      if ¬ jsStartsWith trimmedKey "AI" then
        ⟨false, ["Gemini API key should start with \"AI\""], warnings⟩
      else if ¬ (¬ trimmedKey.data.isEmpty ∧ trimmedKey.data.all isKeyChar) then
        ⟨false, ["API key contains invalid characters"], warnings⟩
      else if jsIncludes trimmedKey " " then
        ⟨false, ["API key should not contain spaces"], warnings⟩
      else
        let warnings := warnings ++
          (if jsIncludes (jsToLower trimmedKey) "example" ∨
              jsIncludes (jsToLower trimmedKey) "test" ∨
              jsIncludes (jsToLower trimmedKey) "demo" then
            ["API key appears to be a test/demo key"]
          else [])
        ⟨true, [], warnings⟩

/-- The `{success, error}` part of the result object of `storeApiKey`. -/
structure StoreResult where
  success : Bool
  error : Option String
deriving DecidableEq, Repr

/-- Shallow embedding of `SecureStorageService.storeApiKey`
(secureStorage.js lines 167-243).  `encrypt` stands for the Electron
platform primitive `safeStorage.encryptString`; `testAgainstApi` is the
option of the same name and `apiTestOk` the outcome of the (network) live
test, consulted only when the live test is requested.  Returns the result
record together with the updated store. -/
def storeApiKey (encrypt : String → List Byte) (testAgainstApi apiTestOk : Bool)
    (st : Store) (keyName apiKey : String) : StoreResult × Store :=
  if apiKey = "" ∨ jsLength (jsTrim apiKey) = 0 then
    (⟨false, some "Invalid API key provided"⟩, st)
  else
    let validation := validateApiKeyFormat apiKey
    if ¬ validation.isValid then
      (⟨false, some ("API key format validation failed: " ++
        String.intercalate ", " validation.errors)⟩, st)
    else if testAgainstApi ∧ ¬ apiTestOk then
      (⟨false, some "API key test failed"⟩, st)
    else
      let encryptedString := latin1Encode (encrypt apiKey)
      (⟨true, none⟩, storeSet st keyName encryptedString)

/-- Shallow embedding of `SecureStorageService.retrieveApiKey`
(secureStorage.js lines 250-284).  `decrypt` stands for
`safeStorage.decryptString`; its `none` models the JS original throwing
(corrupted ciphertext, wrong platform, missing OS keyring), which the
source catches and converts to `null`.  The `if (!encryptedString)` check
treats both an absent key and an empty stored string as "not found". -/
def retrieveApiKey (decrypt : List Byte → Option String) (st : Store)
    (keyName : String) : Option String :=
  match st keyName with
  | none => none
  | some encryptedString =>
    if encryptedString = "" then none
    else decrypt (latin1Decode encryptedString)

/-- The storage key `this.KEYS.BACKEND_CONFIG`. -/
def BACKEND_CONFIG : String := "backend_config"

/-- Shallow embedding of `SecureStorageService.retrieveBackendConfig`
(secureStorage.js lines 413-444).  `jsonParse` stands for `JSON.parse`,
whose throw on malformed input is modelled by `none`; both a decryption
failure and a parse failure are caught by the source and become `null`. -/
def retrieveBackendConfig {α : Type} (decrypt : List Byte → Option String)
    (jsonParse : String → Option α) (st : Store) : Option α :=
  match st BACKEND_CONFIG with
  | none => none
  | some encryptedString =>
    if encryptedString = "" then none
    else
      match decrypt (latin1Decode encryptedString) with
      | none => none
      | some decryptedString => jsonParse decryptedString

end SecureStorage

namespace GeminiService

/-- Shallow embedding of `GeminiService.validateApiKeyFormat` (Gemini client,
lines 161-174): only non-emptiness and a minimum trimmed length of 20 are
checked before the function returns `true`. -/
def validateApiKeyFormat (apiKey : String) : Bool :=
  if apiKey = "" then false
  else if jsLength (jsTrim apiKey) < 20 then false
  else true

end GeminiService

/-- A JS error value as observed by the retry loops: its `name` and `message`. -/
structure JsErr where
  name : String
  message : String
deriving DecidableEq, Repr

/-- The outcome of one `fetch` attempt inside `generateResponse`:
a successful streamed/parsed response, an abort fired by the timeout timer,
a non-ok HTTP response (which both clients turn into
`Error('HTTP <status>: <message>')`), or a network-level error. -/
inductive Outcome where
  | ok (response : String)
  | abort
  | httpErr (status : Nat) (body : String)
  | netErr (name message : String)
deriving DecidableEq, Repr

/-- The error thrown by a failed attempt.  A Node `AbortError` carries the
platform message "This operation was aborted". -/
def Outcome.err : Outcome → JsErr
  | .ok r => ⟨"", r⟩
  | .abort => ⟨"AbortError", "This operation was aborted"⟩
  | .httpErr status body => ⟨"Error", "HTTP " ++ toString status ++ ": " ++ body⟩
  | .netErr name message => ⟨name, message⟩

/-- Result of `generateResponse`: a returned value or a thrown error, together
with the total number of fetch attempts that were made. -/
inductive GenResult where
  | ok (response : String) (attempts : Nat)
  | thrown (message : String) (attempts : Nat)
deriving DecidableEq, Repr

/-- Total number of attempts recorded in a `GenResult`. -/
def GenResult.attempts : GenResult → Nat
  | .ok _ n => n
  | .thrown _ n => n

/-- Whether the result is a throw. -/
def GenResult.isThrown : GenResult → Bool
  | .ok _ _ => false
  | .thrown _ _ => true

/-- The catch-block classification of `OllamaService.generateResponse`
(ollamaService.js lines 205-240): an `AbortError` (timeout) is retried, an
error whose message includes "HTTP 404" is rethrown immediately
("Don't retry for model not found"), and every other error — including
"HTTP 500" and the default branch — is retried. -/
def ollamaRethrowsImmediately (e : JsErr) : Bool :=
  if e.name = "AbortError" then false
  else if jsIncludes e.message "HTTP 404" then true
  else false

/-- The catch-block classification of `GeminiService.generateResponse`
(Gemini client, lines 310-364): an `AbortError` is retried, "HTTP 401" is
rethrown immediately ("Don't retry for invalid API key"), "HTTP 429" is
retried, "HTTP 400" is rethrown immediately ("Don't retry for invalid
requests"), and every other error is retried. -/
def geminiRethrowsImmediately (e : JsErr) : Bool :=
  if e.name = "AbortError" then false
  else if jsIncludes e.message "HTTP 401" then true
  else if jsIncludes e.message "HTTP 429" then false
  else if jsIncludes e.message "HTTP 400" then true
  else false

/-- The shared `while (retryCount <= maxRetries)` retry loop of both
`generateResponse` implementations.  `i` is the index of the attempt about
to be made (equal to `retryCount` at the loop head) and `rem` the number of
retries still allowed after it (`maxRetries - i`).  After a failure the
source increments `retryCount`, rethrows immediately when the error is
classified permanent, throws the
`Failed after ${maxRetries} retries: ${error.message}` wrapper when
`retryCount > maxRetries`, and otherwise sleeps and loops. -/
def genLoop (rethrow : JsErr → Bool) (maxRetries : Nat) (outcomes : Nat → Outcome) :
    Nat → Nat → GenResult
  | i, rem =>
    match outcomes i with
    | .ok r => .ok r (i + 1)
    | o =>
      let e := o.err
      if rethrow e then .thrown e.message (i + 1)
      else
        match rem with
        | 0 => .thrown ("Failed after " ++ toString maxRetries ++ " retries: " ++ e.message) (i + 1)
        | rem' + 1 => genLoop rethrow maxRetries outcomes (i + 1) rem'

/-- Shallow embedding of `OllamaService.generateResponse`
(ollamaService.js lines 121-253): the not-connected and empty-prompt guards
throw before any attempt, then the retry loop runs with
`maxRetries = 3`.  `outcomes i` is the result of the `i`-th fetch. -/
def ollamaGenerateResponse (isConnected : Bool) (prompt : String)
    (outcomes : Nat → Outcome) : GenResult :=
  if ¬ isConnected then .thrown "Ollama service not connected" 0
  else if jsLength (jsTrim prompt) = 0 then .thrown "Empty prompt provided" 0
  else genLoop ollamaRethrowsImmediately 3 outcomes 0 3

/-- Shallow embedding of the retry skeleton of `GeminiService.generateResponse`
(Gemini client, lines 222-365), with the same guards and `maxRetries = 3`. -/
def geminiGenerateResponse (isConnected : Bool) (prompt : String)
    (outcomes : Nat → Outcome) : GenResult :=
  if ¬ isConnected then .thrown "Gemini service not connected" 0
  else if jsLength (jsTrim prompt) = 0 then .thrown "Empty prompt provided" 0
  else genLoop geminiRethrowsImmediately 3 outcomes 0 3

namespace GeminiService

/-- What the streaming loop reads out of one parsed JSON object:
`candidates[0].content.parts[0].text` when that path exists, and
`candidates[0].finishReason` when present. -/
structure StreamFrag where
  textPart : Option String
  finishReason : Option String
deriving DecidableEq, Repr

/-- The character-scanner state of `parseStreamingJSON`
(Gemini client, lines 439-487): the accumulated `currentObject`, the brace
depth (a JS number, so it may go negative on stray closers), and the
string/escape flags. -/
structure ScanState where
  currentObject : String
  braceCount : Int
  inString : Bool
  escapeNext : Bool
deriving DecidableEq, Repr

/-- One step per character of `parseStreamingJSON`: escapes are consumed
verbatim, a backslash arms the escape flag, an unescaped quote toggles
string state, braces outside strings adjust the depth (using the value of
`inString` after the toggle, as in the source), the character is appended,
and whenever the depth is zero and the accumulated text is non-blank it is
offered to `JSON.parse` (the `parse` parameter; `none` models a parse
throw, which the source skips) and the accumulator is reset. -/
def scanJson (parse : String → Option StreamFrag) :
    List Char → ScanState → List StreamFrag → List StreamFrag
  | [], _, objects => objects
  | c :: rest, st, objects =>
    if st.escapeNext then
      scanJson parse rest { st with currentObject := st.currentObject.push c, escapeNext := false } objects
    else if c = '\\' then
      scanJson parse rest { st with currentObject := st.currentObject.push c, escapeNext := true } objects
    else
      let st := if c = '"' then { st with inString := ¬ st.inString } else st
      let st :=
        if ¬ st.inString then
          if c = '\x7b' then { st with braceCount := st.braceCount + 1 }
          else if c = '\x7d' then { st with braceCount := st.braceCount - 1 }
          else st
        else st
      let st := { st with currentObject := st.currentObject.push c }
      if st.braceCount = 0 ∧ jsTrim st.currentObject ≠ "" then
        let objects :=
          match parse (jsTrim st.currentObject) with
          | some o => objects ++ [o]
          | none => objects
        scanJson parse rest { st with currentObject := "" } objects
      else
        scanJson parse rest st objects

/-- Shallow embedding of `GeminiService.parseStreamingJSON`
(Gemini client, lines 439-487). -/
def parseStreamingJSON (parse : String → Option StreamFrag) (buffer : String) :
    List StreamFrag :=
  scanJson parse buffer.data ⟨"", 0, false, false⟩ []

/-- The events `handleStreamingResponse` emits. -/
inductive StreamEvent where
  | token (t : String)
  | completed (fullResponse : String)
deriving DecidableEq, Repr

/-- The per-object body of the `for (const data of jsonObjects)` loop of
`handleStreamingResponse`: a non-empty text part is appended to
`fullResponse` and emitted as a token event, and a (truthy) `finishReason`
emits the terminal event and returns from the whole function (the `Bool`
marks that early return). -/
def handleFrags : List StreamFrag → String → List StreamEvent →
    String × List StreamEvent × Bool
  | [], fullResponse, events => (fullResponse, events, false)
  | f :: rest, fullResponse, events =>
    let (fullResponse, events) :=
      match f.textPart with
      | some content =>
        if content ≠ "" then
          (fullResponse ++ content, events ++ [StreamEvent.token content])
        else (fullResponse, events)
      | none => (fullResponse, events)
    if f.finishReason.getD "" ≠ "" then
      (fullResponse, events ++ [StreamEvent.completed fullResponse], true)
    else
      handleFrags rest fullResponse events

/-- Shallow embedding of `GeminiService.handleStreamingResponse`
(Gemini client, lines 367-437) driven by the list of chunks the reader
yields.  Each chunk is appended to `buffer`, the WHOLE buffer is re-scanned
by `parseStreamingJSON` (the source never trims consumed objects from
`buffer`), and the resulting objects are processed in order; returns the
final `fullResponse` together with the emitted events. -/
def handleStreamingResponse (parse : String → Option StreamFrag)
    (chunks : List String) : String × List StreamEvent :=
  go chunks "" "" []
where
  go : List String → String → String → List StreamEvent → String × List StreamEvent
    | [], _, fullResponse, events => (fullResponse, events)
    | chunk :: rest, buffer, fullResponse, events =>
      let buffer := buffer ++ chunk
      let frags := parseStreamingJSON parse buffer
      match handleFrags frags fullResponse events with
      | (fullResponse, events, true) => (fullResponse, events)
      | (fullResponse, events, false) => go rest buffer fullResponse events

/-- A streamed Gemini JSON object whose only candidate carries the text "a"
and no finish reason (concrete wire data for evaluating the stream
handler). -/
def objA : String :=
  "\x7b\"candidates\":[\x7b\"content\":\x7b\"parts\":[\x7b\"text\":\"a\"\x7d]\x7d\x7d]\x7d"

/-- A streamed Gemini JSON object whose only candidate carries the text "b"
and finish reason "STOP". -/
def objB : String :=
  "\x7b\"candidates\":[\x7b\"content\":\x7b\"parts\":[\x7b\"text\":\"b\"\x7d]\x7d,\"finishReason\":\"STOP\"\x7d]\x7d"

/-- `JSON.parse` plus candidate-field extraction, instantiated for the two
concrete wire objects `objA` and `objB` (everything else fails to parse). -/
def parseAB : String → Option StreamFrag := fun s =>
  if s = objA then some ⟨some "a", none⟩
  else if s = objB then some ⟨some "b", some "STOP"⟩
  else none

end GeminiService

namespace ClipboardMonitor

/-- The email test `/^[^\s@]+@[^\s@]+\.[^\s@]+$/` of `detectContentType`:
the string must consist of a non-empty run without whitespace or `@`, one
`@`, and a non-empty run containing a `.` with at least one character on
each side of it (all without whitespace or further `@`). -/
def emailLike (t : String) : Bool :=
  match t.data.splitOn '@' with
  | [local_, domain] =>
    ¬ local_.isEmpty ∧ t.data.all (fun c => ¬ isJsSpace c) ∧
      ((domain.drop 1).dropLast.contains '.')
  | _ => false

/-- The URL test `/^https?:\/\/.+/ || /^www\./`: a scheme with at least one
character after it, or a leading `www.`. -/
def urlLike (t : String) : Bool :=
  (jsStartsWith t "http://" ∧ 7 < jsLength t) ∨
    (jsStartsWith t "https://" ∧ 8 < jsLength t) ∨
    jsStartsWith t "www."

/-- Shallow embedding of `ClipboardMonitor.detectContentType`
(clipboardMonitor.js lines 330-366; identical in the adaptive variant,
lines 504-540): empty → url → email → code heuristics → long text with a
period → short text. -/
def detectContentType (content : String) : String :=
  if content = "" ∨ jsTrim content = "" then "empty"
  else
    let trimmed := jsTrim content
    if urlLike trimmed then "url"
    else if emailLike trimmed then "email"
    else if jsIncludes trimmed "function" ∨ jsIncludes trimmed "const " ∨
        jsIncludes trimmed "var " ∨ jsIncludes trimmed "let " ∨
        (trimmed.data.contains '\x7b' ∧ trimmed.data.contains '\x7d') ∨
        (trimmed.data.contains '(' ∧ trimmed.data.contains ')') then "code"
    else if 100 < jsLength trimmed ∧ trimmed.data.contains '.' then "text"
    else "short-text"

/-- Shallow embedding of `ClipboardMonitor.isValidClipboardChange`
(clipboardMonitor.js lines 296-323; identical in the adaptive variant,
lines 470-497).  The null/undefined branch cannot fire: the poller always
passes `clipboard.readText() || ''`, a string. -/
def isValidClipboardChange (newValue oldValue : String) : Bool :=
  if jsTrim newValue = "" ∧ jsTrim oldValue = "" then false
  else if jsLength (jsTrim newValue) < 3 then false
  else if 10000 < jsLength newValue then false
  else if newValue = oldValue then false
  else true

/-- Shallow embedding of `ClipboardMonitor.isSignificantChange`
(clipboardMonitor.js lines 374-398; identical in the adaptive variant,
lines 548-572).  The length test `lengthDiff > avgLength * 0.5` with
`avgLength = (newLen + oldLen) / 2` is the exact float comparison
`|newLen - oldLen| > (newLen + oldLen) / 4`, rendered over naturals as
`4 * |newLen - oldLen| > newLen + oldLen`. -/
def isSignificantChange (newValue oldValue : String) : Bool :=
  if oldValue = "" ∨ jsTrim oldValue = "" then true
  else
    let lengthDiff := max (jsLength newValue) (jsLength oldValue) -
      min (jsLength newValue) (jsLength oldValue)
    if jsLength newValue + jsLength oldValue < 4 * lengthDiff then true
    else
      let newType := detectContentType newValue
      let oldType := detectContentType oldValue
      if newType ≠ oldType then true
      else true

/-- The `ClipboardChangeEvent` payload built by `handleClipboardChange`
(clipboardMonitor.js lines 269-277), without the performance sub-object of
the adaptive variant. -/
structure ChangeEvent where
  newValue : String
  oldValue : String
  timestamp : Int
  isEmpty : Bool
  length : Nat
  type : String
  isSignificant : Bool
deriving DecidableEq, Repr

/-- Construction of the emitted change event (clipboardMonitor.js lines 269-277). -/
def mkChangeEvent (now : Int) (newValue oldValue : String) : ChangeEvent :=
  { newValue := newValue
    oldValue := oldValue
    timestamp := now
    isEmpty := newValue = "" ∨ jsTrim newValue = ""
    length := jsLength newValue
    type := detectContentType newValue
    isSignificant := isSignificantChange newValue oldValue }

/-- The monitor state touched by `handleClipboardChange` in the
non-debounced monitor (clipboardMonitor.js). -/
structure MonState where
  previousValue : String
  lastChangeTime : Int
  changeCount : Nat
deriving DecidableEq, Repr

/-- Shallow embedding of `ClipboardMonitor.handleClipboardChange`
(clipboardMonitor.js lines 248-288): a change within 500ms of the last
accepted change is dropped, an invalid change is dropped, and otherwise
the state is updated and the change event emitted synchronously. -/
def handleClipboardChange (st : MonState) (now : Int) (newValue oldValue : String) :
    MonState × Option ChangeEvent :=
  if now - st.lastChangeTime < 500 then (st, none)
  else if ¬ isValidClipboardChange newValue oldValue then (st, none)
  else
    ({ previousValue := newValue, lastChangeTime := now, changeCount := st.changeCount + 1 },
      some (mkChangeEvent now newValue oldValue))

end ClipboardMonitor

namespace AdaptiveClipboardMonitor

/-- The `this.adaptivePolling` object of the adaptive monitor's constructor
(adaptive variant, lines 31-41).  Intervals are rationals (JS floats);
time thresholds are integer milliseconds. -/
structure AdaptivePolling where
  enabled : Bool
  minInterval : ℚ
  maxInterval : ℚ
  currentInterval : ℚ
  activityThreshold : Int
  inactivityThreshold : Int
  changeRateThreshold : Nat
  lastChangeRate : Nat
  changeHistory : List Int
deriving DecidableEq, Repr

/-- The `this.performanceMetrics` object (adaptive variant, lines 44-52). -/
structure PerformanceMetrics where
  startTime : Int
  totalPolls : Nat
  totalChanges : Nat
  averagePollTime : ℚ
  lastMetricsUpdate : Int
deriving DecidableEq, Repr

/-- A scheduled debounce callback: `handleClipboardChange` stores the change
and the captured `now` in a 100ms timer instead of emitting synchronously
(adaptive variant, lines 420-462). -/
structure PendingChange where
  newValue : String
  oldValue : String
  capturedNow : Int
deriving DecidableEq, Repr

/-- The mutable fields of the adaptive `ClipboardMonitor` that its poll tick
touches (adaptive variant). -/
structure MonState where
  isPaused : Bool
  lastPollTime : Int
  pollCount : Nat
  changeCount : Nat
  retryCount : Nat
  previousValue : String
  lastChangeTime : Int
  lastActivityTime : Int
  pollingIntervalMs : ℚ
  adaptivePolling : AdaptivePolling
  performanceMetrics : PerformanceMetrics
  pendingChange : Option PendingChange
deriving DecidableEq, Repr

/-- The events a poll tick of the adaptive monitor can emit. -/
inductive MonEvent where
  | polling
  | monitoringPaused
  | monitoringResumed
  | performanceMetrics
  | adaptiveIntervalUpdated
deriving DecidableEq, Repr

/-- Shallow embedding of `calculatePerformanceMetrics` (adaptive variant,
lines 373-398): a no-op within 10s of the last update, otherwise refreshes
the metrics and emits a performance-metrics event. -/
def calculatePerformanceMetrics (st : MonState) (now : Int) : MonState × List MonEvent :=
  if now - st.performanceMetrics.lastMetricsUpdate < 10000 then (st, [])
  else
    let avg :=
      if 0 < st.pollCount then
        ((now - st.performanceMetrics.startTime : Int) : ℚ) / (st.pollCount : ℚ)
      else st.performanceMetrics.averagePollTime
    ({ st with
        performanceMetrics :=
          { st.performanceMetrics with
              lastMetricsUpdate := now
              totalPolls := st.pollCount
              totalChanges := st.changeCount
              averagePollTime := avg } },
      [MonEvent.performanceMetrics])

/-- Shallow embedding of `updateAdaptiveInterval` (adaptive variant, lines
305-368): the 60s sliding change-rate window, the grow (×1.5) / shrink
(×0.8 / ×0.7) rules, and the 100ms hysteresis before the interval (and the
polling timer) is actually replaced. -/
def updateAdaptiveInterval (st : MonState) (now : Int) : MonState × List MonEvent :=
  let hist := st.adaptivePolling.changeHistory.filter (fun ts => now - 60000 < ts)
  let rate := hist.length
  let cur := st.adaptivePolling.currentInterval
  let newInterval :=
    if st.adaptivePolling.inactivityThreshold < now - st.lastActivityTime then
      min st.adaptivePolling.maxInterval (cur * (3 / 2))
    else if now - st.lastActivityTime < st.adaptivePolling.activityThreshold then
      max st.adaptivePolling.minInterval (cur * (4 / 5))
    else if st.adaptivePolling.changeRateThreshold < rate then
      max st.adaptivePolling.minInterval (cur * (7 / 10))
    else cur
  let st := { st with
    adaptivePolling := { st.adaptivePolling with changeHistory := hist, lastChangeRate := rate } }
  if 100 < |newInterval - cur| then
    ({ st with
        adaptivePolling := { st.adaptivePolling with currentInterval := newInterval }
        pollingIntervalMs := newInterval },
      [MonEvent.adaptiveIntervalUpdated])
  else (st, [])

/-- Shallow embedding of `optimizePolling` (adaptive variant, lines 268-300):
performance metrics, then the pause transition (inactivity beyond the 30s
`pauseThreshold`), then the resume transition (activity within the 5s
`resumeThreshold`), then the adaptive-interval update.  The source reads
`Date.now()` again here; within one synchronous tick it is the tick's
`now`. -/
def optimizePolling (st : MonState) (now : Int) : MonState × List MonEvent :=
  let r1 := calculatePerformanceMetrics st now
  let st1 := r1.1
  let r2 :=
    if ¬ st1.isPaused ∧ 30000 < now - st1.lastActivityTime then
      ({ st1 with isPaused := true }, [MonEvent.monitoringPaused])
    else (st1, [])
  let st2 := r2.1
  let r3 :=
    if st2.isPaused ∧ now - st2.lastActivityTime < 5000 then
      ({ st2 with isPaused := false }, [MonEvent.monitoringResumed])
    else (st2, [])
  let st3 := r3.1
  let r4 :=
    if st3.adaptivePolling.enabled then updateAdaptiveInterval st3 now else (st3, [])
  (r4.1, r1.2 ++ r2.2 ++ r3.2 ++ r4.2)

/-- Shallow embedding of the synchronous part of the adaptive
`handleClipboardChange` (adaptive variant, lines 405-462): the 500ms
minimum-change-interval gate, the validity gate, then (re)arming the 100ms
debounce timer with the pending change; the deferred callback itself runs
outside the poll tick. -/
def handleClipboardChange (st : MonState) (now : Int) (newValue oldValue : String) :
    MonState :=
  if now - st.lastChangeTime < 500 then st
  else if ¬ ClipboardMonitor.isValidClipboardChange newValue oldValue then st
  else { st with pendingChange := some ⟨newValue, oldValue, now⟩ }

/-- The state updates of the body of a successful poll tick (adaptive
variant, lines 199-223): poll bookkeeping, the activity-time refresh,
change handling and the retry-count reset. -/
def pollBodyState (st : MonState) (now : Int) (clipValue : String) : MonState :=
  let st := { st with lastPollTime := now, pollCount := st.pollCount + 1 }
  let st := { st with lastActivityTime := now }
  let st :=
    if clipValue ≠ st.previousValue then
      handleClipboardChange st now clipValue st.previousValue
    else st
  { st with retryCount := 0 }

/-- Shallow embedding of `pollClipboard` (adaptive variant, lines 185-230)
on a successful clipboard read `clipValue` at time `now`: the paused
short-circuit at the top of the tick, the 50ms rate limit, then the body
updates, the polling event and `optimizePolling`. -/
def pollClipboard (st : MonState) (now : Int) (clipValue : String) :
    MonState × List MonEvent :=
  if st.isPaused then (st, [])
  else if now - st.lastPollTime < 50 then (st, [])
  else
    let st' := pollBodyState st now clipValue
    let r := optimizePolling st' now
    (r.1, MonEvent.polling :: r.2)

end AdaptiveClipboardMonitor

namespace MainProcess

/-- The orchestrator state consulted by `determineBackendFromSettings`
(main.js lines 3270-3348): the persisted active backend (empty string for
a missing/falsy value), whether the Gemini service object exists and is
connected, whether the vault currently yields a Gemini API key, and the
Ollama service's existence, connection and current model. -/
structure MainState where
  activeBackend : String
  geminiServiceExists : Bool
  geminiConnected : Bool
  geminiApiKeyPresent : Bool
  ollamaServiceExists : Bool
  ollamaConnected : Bool
  ollamaCurrentModel : Option String
deriving DecidableEq, Repr

/-- The validation record returned by `determineBackendFromSettings`. -/
structure BackendValidation where
  backend : String
  isValid : Bool
  error : Option String
deriving DecidableEq, Repr

/-- Shallow embedding of `determineBackendFromSettings` (main.js lines
3270-3348).  `backend` is declared with `const` (line 3271); in the
"Gemini service not initialized, falling back to Ollama" branch the source
first sets `validation.backend = 'ollama'` and then executes
`backend = 'ollama'` (line 3293), an assignment to a const binding, which
in JavaScript throws `TypeError: Assignment to constant variable.`; the
surrounding try/catch records that message on the partially updated
validation record, so the branch returns an invalid validation instead of
falling through to the Ollama checks. -/
def determineBackendFromSettings (st : MainState) : BackendValidation :=
  let backend := if st.activeBackend = "" then "ollama" else st.activeBackend
  if backend = "gemini" then
    if ¬ st.geminiServiceExists then
      { backend := "ollama", isValid := false,
        error := some "Assignment to constant variable." }
    else if ¬ st.geminiConnected then
      { backend := backend, isValid := false,
        error := some "Gemini service is not connected. Please check your API key configuration." }
    else if ¬ st.geminiApiKeyPresent then
      { backend := backend, isValid := false,
        error := some "Gemini API key is not configured. Please set up your API key in settings." }
    else
      { backend := backend, isValid := true, error := none }
  else if ¬ st.ollamaServiceExists then
    { backend := backend, isValid := false,
      error := some "Ollama service is not initialized" }
  else if ¬ st.ollamaConnected then
    { backend := backend, isValid := false,
      error := some "Ollama service is not connected. Please ensure Ollama is running locally at http://localhost:11434" }
  else
    match st.ollamaCurrentModel with
    | none =>
      { backend := backend, isValid := false,
        error := some "No Ollama model is configured. Please select a model in settings." }
    | some _ =>
      { backend := backend, isValid := true, error := none }

/-- The renderer-facing messages the routing part of the orchestrator's
`handleClipboardChange` can send. -/
inductive RendererMsg where
  | backendError (message : String)
  | backendFallback (fromBackend toBackend : String)
  | dispatch (backend : String)
deriving DecidableEq, Repr

/-- Shallow embedding of the routing part of the orchestrator's
`handleClipboardChange` (main.js lines 3350-3453): skip insignificant or
empty events, send a `backend-error` when validation fails, send a
`backend-fallback` notification when Gemini was configured but validation
produced Ollama, then dispatch the generation to the validated backend. -/
def handleClipboardChange (st : MainState) (ev : ClipboardMonitor.ChangeEvent) :
    List RendererMsg :=
  if ¬ ev.isSignificant then []
  else if ev.isEmpty then []
  else
    let v := determineBackendFromSettings st
    if ¬ v.isValid then
      [RendererMsg.backendError (v.error.getD "")]
    else
      (if st.activeBackend = "gemini" ∧ v.backend = "ollama" then
        [RendererMsg.backendFallback "gemini" "ollama"]
      else []) ++ [RendererMsg.dispatch v.backend]

end MainProcess

/-- A concrete well-formed Gemini API key used to exercise the vault. -/
def exampleKey : String := "AIabcdefghijklmnopqrstuv"

/-- A concrete encryption for exercising the vault: each character becomes
its code-point byte (total on the ASCII `exampleKey`). -/
def exampleEncrypt : String → List Byte := fun s => s.data.map charToByte

/-- The matching concrete decryption: bytes back to characters. -/
def exampleDecrypt : List Byte → Option String := fun bs => some ⟨bs.map byteToChar⟩

/-- The empty persistence store. -/
def emptyStore : SecureStorage.Store := fun _ => none

/-- A store holding (corrupt) blobs under both vault keys. -/
def corruptStore : SecureStorage.Store := fun k =>
  if k = "gemini_api_key" then some "corrupt-blob"
  else if k = SecureStorage.BACKEND_CONFIG then some "corrupt-blob"
  else none

/-- A decryption that always fails (missing OS keyring / wrong platform). -/
def failingDecrypt : List Byte → Option String := fun _ => none

/-- A concrete adaptive-monitor state (fields as initialized by the
constructor) with a chosen paused flag, for exercising the poll tick. -/
def exampleMonState (paused : Bool) : AdaptiveClipboardMonitor.MonState :=
  { isPaused := paused
    lastPollTime := 0
    pollCount := 0
    changeCount := 0
    retryCount := 0
    previousValue := ""
    lastChangeTime := 0
    lastActivityTime := 0
    pollingIntervalMs := 1000
    adaptivePolling :=
      { enabled := true, minInterval := 500, maxInterval := 5000, currentInterval := 1000
        activityThreshold := 10000, inactivityThreshold := 30000, changeRateThreshold := 5
        lastChangeRate := 0, changeHistory := [] }
    performanceMetrics :=
      { startTime := 0, totalPolls := 0, totalChanges := 0, averagePollTime := 0
        lastMetricsUpdate := 0 }
    pendingChange := none }

theorem byteToChar_toNat (b : Byte) : (byteToChar b).toNat = b.val := by
  have h := b.isLt
  show (UInt32.ofNat b.val).toNat = b.val
  have he : (UInt32.ofNat b.val).toNat = b.val % UInt32.size := rfl
  rw [he]
  exact Nat.mod_eq_of_lt (Nat.lt_trans h (by norm_num [UInt32.size]))

theorem charToByte_byteToChar (b : Byte) : charToByte (byteToChar b) = b := by
  have h := b.isLt
  apply Fin.ext
  show (byteToChar b).toNat % 256 = b.val
  rw [byteToChar_toNat]
  exact Nat.mod_eq_of_lt h

/-- The latin1 byte-to-string encoding used on the write path is inverted
exactly by the latin1 string-to-byte decoding used on the read path. -/
theorem latin1Decode_latin1Encode (bs : List Byte) : latin1Decode (latin1Encode bs) = bs := by
  show (bs.map byteToChar).map charToByte = bs
  rw [List.map_map]
  have : charToByte ∘ byteToChar = id := funext charToByte_byteToChar
  rw [this, List.map_id]

theorem latin1Encode_eq_empty_iff (bs : List Byte) : latin1Encode bs = "" ↔ bs = [] := by
  constructor
  · intro h
    have hd : (latin1Encode bs).data = ("" : String).data := by rw [h]
    have hd' : bs.map byteToChar = [] := hd
    simpa using hd'
  · intro h
    subst h
    rfl

theorem validateApiKeyFormat_isValid_ne_empty {x : String}
    (h : (SecureStorage.validateApiKeyFormat x).isValid = true) :
    x ≠ "" ∧ ¬ jsLength (jsTrim x) < 20 := by
  constructor
  · intro hx
    subst hx
    simp [SecureStorage.validateApiKeyFormat] at h
  · intro hlen
    by_cases hx : x = ""
    · subst hx
      simp [SecureStorage.validateApiKeyFormat] at h
    · simp [SecureStorage.validateApiKeyFormat, hx, hlen] at h

/-- C1.  For every string `x` that the vault stores under a name via
`storeApiKey` (live API test disabled) and that passes format validation,
the store reports success and a subsequent `retrieveApiKey` of the same
name returns exactly `x`, from an arbitrary starting store — so the
round-trip also holds across repeated store/retrieve cycles — because the
latin1 byte-to-string serialization applied on write is inverted exactly
by the latin1 deserialization applied on read.  The platform encryption is
an arbitrary pair `encrypt`/`decrypt` with `decrypt ∘ encrypt = id` on `x`
and a non-empty ciphertext. -/
theorem vault_store_retrieve_roundtrip
    (encrypt : String → List Byte) (decrypt : List Byte → Option String)
    (st : SecureStorage.Store) (keyName x : String)
    (hval : (SecureStorage.validateApiKeyFormat x).isValid = true)
    (hne : encrypt x ≠ [])
    (hinv : decrypt (encrypt x) = some x) :
    (SecureStorage.storeApiKey encrypt false true st keyName x).1.success = true ∧
    SecureStorage.retrieveApiKey decrypt
      (SecureStorage.storeApiKey encrypt false true st keyName x).2 keyName = some x := by
  obtain ⟨hx, hlen⟩ := validateApiKeyFormat_isValid_ne_empty hval
  have hguard : ¬ (x = "" ∨ jsLength (jsTrim x) = 0) := by
    rintro (h | h)
    · exact hx h
    · omega
  have hsenc : latin1Encode (encrypt x) ≠ "" := by
    intro h
    exact hne ((latin1Encode_eq_empty_iff (encrypt x)).mp h)
  constructor
  · simp [SecureStorage.storeApiKey, hguard, hval]
  · simp [SecureStorage.storeApiKey, SecureStorage.retrieveApiKey,
      SecureStorage.storeSet, hval, hguard, hsenc, latin1Decode_latin1Encode, hinv]

/-- Witness for C1 at a concrete key, encryption and store. -/
theorem vault_store_retrieve_roundtrip_witness :
    (SecureStorage.validateApiKeyFormat exampleKey).isValid = true ∧
    exampleEncrypt exampleKey ≠ [] ∧
    exampleDecrypt (exampleEncrypt exampleKey) = some exampleKey ∧
    SecureStorage.retrieveApiKey exampleDecrypt
      (SecureStorage.storeApiKey exampleEncrypt false true emptyStore
        "gemini_api_key" exampleKey).2 "gemini_api_key" = some exampleKey :=
  ⟨by decide, by decide, by decide,
    (vault_store_retrieve_roundtrip exampleEncrypt exampleDecrypt emptyStore
      "gemini_api_key" exampleKey (by decide) (by decide) (by decide)).2⟩

/-- C2.  A decryption failure on a stored blob yields the same observable
result as an absent key: `retrieveApiKey` and `retrieveBackendConfig` both
return `none` whether the key is absent or its blob fails to decrypt
(corrupted ciphertext, wrong platform, missing OS keyring — all modelled
by the `decrypt` parameter yielding `none`, exactly the cases in which the
source's `safeStorage.decryptString` throws and the catch returns `null`);
moreover `retrieveApiKey` returns a value only when it comes from a fully
successful decryption of the stored blob, so no partially decoded string
can be returned, and both embeddings are total functions, so no failure
escapes as an exception. -/
theorem vault_decrypt_failure_yields_not_found :
    (∀ (decrypt : List Byte → Option String) (st : SecureStorage.Store) (k : String),
      st k = none → SecureStorage.retrieveApiKey decrypt st k = none) ∧
    (∀ (decrypt : List Byte → Option String) (st : SecureStorage.Store) (k s : String),
      st k = some s → decrypt (latin1Decode s) = none →
      SecureStorage.retrieveApiKey decrypt st k = none) ∧
    (∀ (decrypt : List Byte → Option String) (st : SecureStorage.Store) (k r : String),
      SecureStorage.retrieveApiKey decrypt st k = some r →
      ∃ s, st k = some s ∧ decrypt (latin1Decode s) = some r) ∧
    (∀ (α : Type) (decrypt : List Byte → Option String) (jsonParse : String → Option α)
      (st : SecureStorage.Store),
      st SecureStorage.BACKEND_CONFIG = none →
      SecureStorage.retrieveBackendConfig decrypt jsonParse st = none) ∧
    (∀ (α : Type) (decrypt : List Byte → Option String) (jsonParse : String → Option α)
      (st : SecureStorage.Store) (s : String),
      st SecureStorage.BACKEND_CONFIG = some s → decrypt (latin1Decode s) = none →
      SecureStorage.retrieveBackendConfig decrypt jsonParse st = none) := by
  refine ⟨?_, ?_, ?_, ?_, ?_⟩
  · intro decrypt st k h
    simp [SecureStorage.retrieveApiKey, h]
  · intro decrypt st k s h hd
    by_cases hs : s = "" <;>
      simp [SecureStorage.retrieveApiKey, h, hs, hd]
  · intro decrypt st k r h
    unfold SecureStorage.retrieveApiKey at h
    cases hk : st k with
    | none => rw [hk] at h; simp at h
    | some s =>
      rw [hk] at h
      by_cases hs : s = ""
      · simp [hs] at h
      · refine ⟨s, rfl, ?_⟩
        simpa [hs] using h
  · intro α decrypt jsonParse st h
    simp [SecureStorage.retrieveBackendConfig, h]
  · intro α decrypt jsonParse st s h hd
    by_cases hs : s = "" <;>
      simp [SecureStorage.retrieveBackendConfig, h, hs, hd]

/-- Witness for C2 at a concrete corrupt store and failing decryption. -/
theorem vault_decrypt_failure_yields_not_found_witness :
    (emptyStore "gemini_api_key" = none ∧
      SecureStorage.retrieveApiKey failingDecrypt emptyStore "gemini_api_key" = none) ∧
    (corruptStore "gemini_api_key" = some "corrupt-blob" ∧
      failingDecrypt (latin1Decode "corrupt-blob") = none ∧
      SecureStorage.retrieveApiKey failingDecrypt corruptStore "gemini_api_key" = none) ∧
    (corruptStore SecureStorage.BACKEND_CONFIG = some "corrupt-blob" ∧
      SecureStorage.retrieveBackendConfig failingDecrypt
        (fun _ => some (0 : Nat)) corruptStore = none) :=
  ⟨⟨rfl, vault_decrypt_failure_yields_not_found.1 failingDecrypt emptyStore
      "gemini_api_key" rfl⟩,
    ⟨rfl, rfl, vault_decrypt_failure_yields_not_found.2.1 failingDecrypt corruptStore
      "gemini_api_key" "corrupt-blob" rfl rfl⟩,
    ⟨rfl, vault_decrypt_failure_yields_not_found.2.2.2.2 Nat failingDecrypt
      (fun _ => some (0 : Nat)) corruptStore "corrupt-blob" rfl rfl⟩⟩

theorem genLoop_rethrow_first (rethrow : JsErr → Bool) (m : Nat)
    (outcomes : Nat → Outcome) (o : Outcome) (ho : outcomes 0 = o)
    (hok : ∀ r, o ≠ Outcome.ok r) (hre : rethrow o.err = true) (rem : Nat) :
    genLoop rethrow m outcomes 0 rem = GenResult.thrown o.err.message 1 := by
  rw [genLoop, ho]
  cases o with
  | ok r => exact absurd rfl (hok r)
  | abort => simp [hre]
  | httpErr status body => simp [hre]
  | netErr name message => simp [hre]

theorem genLoop_all_retryable (rethrow : JsErr → Bool) (m : Nat)
    (outcomes : Nat → Outcome) (o : Outcome) (ho : ∀ i, outcomes i = o)
    (hok : ∀ r, o ≠ Outcome.ok r) (hre : rethrow o.err = false) :
    ∀ rem i, genLoop rethrow m outcomes i rem =
      GenResult.thrown ("Failed after " ++ toString m ++ " retries: " ++ o.err.message)
        (i + rem + 1) := by
  intro rem
  induction rem with
  | zero =>
    intro i
    rw [genLoop, ho i]
    cases o with
    | ok r => exact absurd rfl (hok r)
    | abort => simp [hre]
    | httpErr status body => simp [hre]
    | netErr name message => simp [hre]
  | succ rem' ih =>
    intro i
    have step : genLoop rethrow m outcomes i (rem' + 1) =
        genLoop rethrow m outcomes (i + 1) rem' := by
      rw [genLoop, ho i]
      cases o with
      | ok r => exact absurd rfl (hok r)
      | abort => simp [hre]
      | httpErr status body => simp [hre]
      | netErr name message => simp [hre]
    rw [step, ih (i + 1)]
    congr 1
    omega

/-- C3, counterexample.  The claim says a model-not-found (HTTP 404),
invalid-API-key (HTTP 401) or malformed-request (HTTP 400) failure is
never retried in either client.  In fact the Gemini client retries HTTP
404 to the cap (its catch block special-cases only 401 and 400), and the
Ollama client retries HTTP 401 and HTTP 400 to the cap (its catch block
special-cases only 404): with every attempt failing the same way, four
attempts are made instead of one. -/
theorem backend_retry_policy_cex :
    (geminiGenerateResponse true "hi" (fun _ => Outcome.httpErr 404 "Not Found")).attempts = 4 ∧
    (ollamaGenerateResponse true "hi" (fun _ => Outcome.httpErr 401 "Unauthorized")).attempts = 4 ∧
    (ollamaGenerateResponse true "hi" (fun _ => Outcome.httpErr 400 "Bad Request")).attempts = 4 := by
  decide

/-- C3, amended.  Per-client immediate-throw classes: the Ollama client
throws immediately (one attempt, no retry) on HTTP 404 but retries HTTP
401 and HTTP 400 to the cap; the Gemini client throws immediately on HTTP
401 and HTTP 400 but retries HTTP 404 to the cap; both clients retry 5xx
and network errors with exponential backoff up to the cap of
`maxRetries = 3`. -/
theorem backend_retry_policy_amended :
    (∀ (prompt : String) (outcomes : Nat → Outcome), jsLength (jsTrim prompt) ≠ 0 →
      outcomes 0 = Outcome.httpErr 404 "Not Found" →
      ollamaGenerateResponse true prompt outcomes =
        GenResult.thrown "HTTP 404: Not Found" 1) ∧
    (∀ (prompt : String) (outcomes : Nat → Outcome), jsLength (jsTrim prompt) ≠ 0 →
      outcomes 0 = Outcome.httpErr 401 "Unauthorized" →
      geminiGenerateResponse true prompt outcomes =
        GenResult.thrown "HTTP 401: Unauthorized" 1) ∧
    (∀ (prompt : String) (outcomes : Nat → Outcome), jsLength (jsTrim prompt) ≠ 0 →
      outcomes 0 = Outcome.httpErr 400 "Bad Request" →
      geminiGenerateResponse true prompt outcomes =
        GenResult.thrown "HTTP 400: Bad Request" 1) ∧
    (∀ (prompt : String) (outcomes : Nat → Outcome), jsLength (jsTrim prompt) ≠ 0 →
      (∀ i, outcomes i = Outcome.httpErr 500 "Internal Server Error") →
      ollamaGenerateResponse true prompt outcomes =
        GenResult.thrown "Failed after 3 retries: HTTP 500: Internal Server Error" 4 ∧
      geminiGenerateResponse true prompt outcomes =
        GenResult.thrown "Failed after 3 retries: HTTP 500: Internal Server Error" 4) ∧
    (∀ (prompt : String) (outcomes : Nat → Outcome), jsLength (jsTrim prompt) ≠ 0 →
      (∀ i, outcomes i = Outcome.netErr "TypeError" "fetch failed") →
      ollamaGenerateResponse true prompt outcomes =
        GenResult.thrown "Failed after 3 retries: fetch failed" 4 ∧
      geminiGenerateResponse true prompt outcomes =
        GenResult.thrown "Failed after 3 retries: fetch failed" 4) ∧
    (∀ (prompt : String) (outcomes : Nat → Outcome), jsLength (jsTrim prompt) ≠ 0 →
      (∀ i, outcomes i = Outcome.httpErr 404 "Not Found") →
      geminiGenerateResponse true prompt outcomes =
        GenResult.thrown "Failed after 3 retries: HTTP 404: Not Found" 4) ∧
    (∀ (prompt : String) (outcomes : Nat → Outcome), jsLength (jsTrim prompt) ≠ 0 →
      (∀ i, outcomes i = Outcome.httpErr 401 "Unauthorized") →
      ollamaGenerateResponse true prompt outcomes =
        GenResult.thrown "Failed after 3 retries: HTTP 401: Unauthorized" 4) := by
  refine ⟨?_, ?_, ?_, ?_, ?_, ?_, ?_⟩
  · intro prompt outcomes hp h0
    have hgl := genLoop_rethrow_first ollamaRethrowsImmediately 3 outcomes
      (Outcome.httpErr 404 "Not Found") h0
      (fun r h => Outcome.noConfusion h) (by decide) 3
    simp [ollamaGenerateResponse, hp]
    rw [hgl]
    decide
  · intro prompt outcomes hp h0
    have hgl := genLoop_rethrow_first geminiRethrowsImmediately 3 outcomes
      (Outcome.httpErr 401 "Unauthorized") h0
      (fun r h => Outcome.noConfusion h) (by decide) 3
    simp [geminiGenerateResponse, hp]
    rw [hgl]
    decide
  · intro prompt outcomes hp h0
    have hgl := genLoop_rethrow_first geminiRethrowsImmediately 3 outcomes
      (Outcome.httpErr 400 "Bad Request") h0
      (fun r h => Outcome.noConfusion h) (by decide) 3
    simp [geminiGenerateResponse, hp]
    rw [hgl]
    decide
  · intro prompt outcomes hp h
    constructor
    · have hgl := genLoop_all_retryable ollamaRethrowsImmediately 3 outcomes
        (Outcome.httpErr 500 "Internal Server Error") h
        (fun r h' => Outcome.noConfusion h') (by decide)
      simp [ollamaGenerateResponse, hp]
      rw [hgl 3 0]
      decide
    · have hgl := genLoop_all_retryable geminiRethrowsImmediately 3 outcomes
        (Outcome.httpErr 500 "Internal Server Error") h
        (fun r h' => Outcome.noConfusion h') (by decide)
      simp [geminiGenerateResponse, hp]
      rw [hgl 3 0]
      decide
  · intro prompt outcomes hp h
    constructor
    · have hgl := genLoop_all_retryable ollamaRethrowsImmediately 3 outcomes
        (Outcome.netErr "TypeError" "fetch failed") h
        (fun r h' => Outcome.noConfusion h') (by decide)
      simp [ollamaGenerateResponse, hp]
      rw [hgl 3 0]
      decide
    · have hgl := genLoop_all_retryable geminiRethrowsImmediately 3 outcomes
        (Outcome.netErr "TypeError" "fetch failed") h
        (fun r h' => Outcome.noConfusion h') (by decide)
      simp [geminiGenerateResponse, hp]
      rw [hgl 3 0]
      decide
  · intro prompt outcomes hp h
    have hgl := genLoop_all_retryable geminiRethrowsImmediately 3 outcomes
      (Outcome.httpErr 404 "Not Found") h
      (fun r h' => Outcome.noConfusion h') (by decide)
    simp [geminiGenerateResponse, hp]
    rw [hgl 3 0]
    decide
  · intro prompt outcomes hp h
    have hgl := genLoop_all_retryable ollamaRethrowsImmediately 3 outcomes
      (Outcome.httpErr 401 "Unauthorized") h
      (fun r h' => Outcome.noConfusion h') (by decide)
    simp [ollamaGenerateResponse, hp]
    rw [hgl 3 0]
    decide

/-- Witness for C3's amended theorem at concrete prompts and outcome streams. -/
theorem backend_retry_policy_amended_witness :
    ollamaGenerateResponse true "hello" (fun _ => Outcome.httpErr 404 "Not Found") =
      GenResult.thrown "HTTP 404: Not Found" 1 ∧
    geminiGenerateResponse true "hello" (fun _ => Outcome.httpErr 401 "Unauthorized") =
      GenResult.thrown "HTTP 401: Unauthorized" 1 ∧
    geminiGenerateResponse true "hello" (fun _ => Outcome.httpErr 400 "Bad Request") =
      GenResult.thrown "HTTP 400: Bad Request" 1 ∧
    ollamaGenerateResponse true "hello" (fun _ => Outcome.httpErr 500 "Internal Server Error") =
      GenResult.thrown "Failed after 3 retries: HTTP 500: Internal Server Error" 4 ∧
    geminiGenerateResponse true "hello" (fun _ => Outcome.netErr "TypeError" "fetch failed") =
      GenResult.thrown "Failed after 3 retries: fetch failed" 4 ∧
    geminiGenerateResponse true "hello" (fun _ => Outcome.httpErr 404 "Not Found") =
      GenResult.thrown "Failed after 3 retries: HTTP 404: Not Found" 4 ∧
    ollamaGenerateResponse true "hello" (fun _ => Outcome.httpErr 401 "Unauthorized") =
      GenResult.thrown "Failed after 3 retries: HTTP 401: Unauthorized" 4 :=
  ⟨backend_retry_policy_amended.1 "hello" _ (by decide) rfl,
    backend_retry_policy_amended.2.1 "hello" _ (by decide) rfl,
    backend_retry_policy_amended.2.2.1 "hello" _ (by decide) rfl,
    (backend_retry_policy_amended.2.2.2.1 "hello" _ (by decide) (fun _ => rfl)).1,
    (backend_retry_policy_amended.2.2.2.2.1 "hello" _ (by decide) (fun _ => rfl)).2,
    backend_retry_policy_amended.2.2.2.2.2.1 "hello" _ (by decide) (fun _ => rfl),
    backend_retry_policy_amended.2.2.2.2.2.2 "hello" _ (by decide) (fun _ => rfl)⟩

/-- C4.  When every attempt times out (the abort signal fires on each
fetch), both clients make exactly `maxRetries + 1 = 3 + 1 = 4` attempts
and then surface a terminal error by throwing the
"Failed after 3 retries" wrapper. -/
theorem backend_retry_cap (prompt : String) (hp : jsLength (jsTrim prompt) ≠ 0)
    (outcomes : Nat → Outcome) (h : ∀ i, outcomes i = Outcome.abort) :
    ollamaGenerateResponse true prompt outcomes =
      GenResult.thrown "Failed after 3 retries: This operation was aborted" (3 + 1) ∧
    geminiGenerateResponse true prompt outcomes =
      GenResult.thrown "Failed after 3 retries: This operation was aborted" (3 + 1) := by
  constructor
  · have hgl := genLoop_all_retryable ollamaRethrowsImmediately 3 outcomes
      Outcome.abort h (fun r h' => Outcome.noConfusion h') (by decide)
    simp [ollamaGenerateResponse, hp]
    rw [hgl 3 0]
    decide
  · have hgl := genLoop_all_retryable geminiRethrowsImmediately 3 outcomes
      Outcome.abort h (fun r h' => Outcome.noConfusion h') (by decide)
    simp [geminiGenerateResponse, hp]
    rw [hgl 3 0]
    decide

/-- Witness for C4 at a concrete prompt and an all-timeout outcome stream. -/
theorem backend_retry_cap_witness :
    ollamaGenerateResponse true "hello" (fun _ => Outcome.abort) =
      GenResult.thrown "Failed after 3 retries: This operation was aborted" (3 + 1) ∧
    geminiGenerateResponse true "hello" (fun _ => Outcome.abort) =
      GenResult.thrown "Failed after 3 retries: This operation was aborted" (3 + 1) :=
  backend_retry_cap "hello" (by decide) (fun _ => Outcome.abort) (fun _ => rfl)

theorem determine_gemini_never_valid_ollama (st : MainProcess.MainState)
    (hab : st.activeBackend = "gemini") :
    ¬ ((MainProcess.determineBackendFromSettings st).isValid = true ∧
      (MainProcess.determineBackendFromSettings st).backend = "ollama") := by
  rintro ⟨hv, hb⟩
  simp only [MainProcess.determineBackendFromSettings, hab] at hv hb
  split_ifs at hv hb <;> simp_all

/-- C5.  The claimed Gemini-to-Ollama fallback never happens: in the state
the claim describes (Gemini configured but its service object missing
because no API key was available), `determineBackendFromSettings` hits the
`backend = 'ollama'` assignment to the `const backend` binding, the
resulting TypeError is caught, validation comes back invalid, and
`handleClipboardChange` sends a `backend-error` — and in fact no state or
event whatsoever can make the routing emit a `backend-fallback` message,
because the only valid outcomes of the Gemini branch carry
`backend = "gemini"`. -/
theorem backend_fallback_never_emitted :
    MainProcess.handleClipboardChange
        ⟨"gemini", false, false, false, true, true, some "gpt-oss:20b"⟩
        (ClipboardMonitor.mkChangeEvent 0 "some copied text" "") =
      [MainProcess.RendererMsg.backendError "Assignment to constant variable."] ∧
    (∀ (st : MainProcess.MainState) (ev : ClipboardMonitor.ChangeEvent) (f t : String),
      MainProcess.RendererMsg.backendFallback f t ∉ MainProcess.handleClipboardChange st ev) := by
  constructor
  · decide
  · intro st ev f t hmem
    simp only [MainProcess.handleClipboardChange] at hmem
    split_ifs at hmem with h1 h2 h3 h4 <;>
      first
        | exact determine_gemini_never_valid_ollama st h4.1 ⟨not_not.mp h3, h4.2⟩
        | exact determine_gemini_never_valid_ollama st h4.1 ⟨h3, h4.2⟩
        | simp at hmem

set_option maxRecDepth 8000 in
/-- C6.  The Gemini streaming handler is not split-invariant and does not
count each fragment exactly once: because the growing `buffer` is re-scanned
in full on every chunk and consumed objects are never removed from it, a
stream delivered as two chunks — the first containing a complete object
with text "a", the second a complete object with text "b" and a finish
reason — produces `fullResponse = "aab"` (the token "a" is emitted and
accumulated twice), whereas the same bytes delivered as one chunk produce
"ab".  The terminal event does agree with the concatenation of the emitted
token events — both are wrong together. -/
theorem gemini_stream_double_counts :
    (GeminiService.handleStreamingResponse GeminiService.parseAB
        [GeminiService.objA, GeminiService.objB]).1 = "aab" ∧
    (GeminiService.handleStreamingResponse GeminiService.parseAB
        [GeminiService.objA, GeminiService.objB]).2 =
      [GeminiService.StreamEvent.token "a", GeminiService.StreamEvent.token "a",
        GeminiService.StreamEvent.token "b", GeminiService.StreamEvent.completed "aab"] ∧
    (GeminiService.handleStreamingResponse GeminiService.parseAB
        [GeminiService.objA ++ GeminiService.objB]).1 = "ab" := by
  refine ⟨?_, ?_, ?_⟩ <;> decide

/-- C7, counterexample.  Two distinct accepted clipboard values 200ms apart
(the monitor started at time 0, "abcd" arriving at 1000, "wxyz" at 1200):
the EARLIER value is emitted and the LATER one is suppressed by the 500ms
minimum-change-interval gate — the opposite of the claim, which says only
the later of the two is emitted. -/
theorem clipboard_min_interval_cex :
    (ClipboardMonitor.handleClipboardChange ⟨"", 0, 0⟩ 1000 "abcd" "").2 =
      some (ClipboardMonitor.mkChangeEvent 1000 "abcd" "") ∧
    ClipboardMonitor.isValidClipboardChange "wxyz"
      (ClipboardMonitor.handleClipboardChange ⟨"", 0, 0⟩ 1000 "abcd" "").1.previousValue = true ∧
    ("wxyz" : String) ≠ "abcd" ∧
    (ClipboardMonitor.handleClipboardChange
      (ClipboardMonitor.handleClipboardChange ⟨"", 0, 0⟩ 1000 "abcd" "").1
      1200 "wxyz"
      (ClipboardMonitor.handleClipboardChange ⟨"", 0, 0⟩ 1000 "abcd" "").1.previousValue).2 =
      none := by
  refine ⟨?_, ?_, ?_, ?_⟩ <;> decide

/-- C7, amended.  Of two distinct otherwise-acceptable clipboard values
arriving within 500ms of each other, only the EARLIER is emitted: the
first accepted change updates `lastChangeTime`, and the second change is
dropped by the 500ms minimum-change-interval gate before validation.  (In
the adaptive monitor variant the same holds unless both arrivals fall
inside the 100ms debounce window, in which case the pending earlier event
is cancelled and only the later survives.) -/
theorem clipboard_min_interval_amended (st : ClipboardMonitor.MonState)
    (t1 t2 : Int) (v1 v2 : String)
    (h1 : 500 ≤ t1 - st.lastChangeTime)
    (hv : ClipboardMonitor.isValidClipboardChange v1 st.previousValue = true)
    (h2 : t2 - t1 < 500) :
    (ClipboardMonitor.handleClipboardChange st t1 v1 st.previousValue).2 =
      some (ClipboardMonitor.mkChangeEvent t1 v1 st.previousValue) ∧
    (ClipboardMonitor.handleClipboardChange
        (ClipboardMonitor.handleClipboardChange st t1 v1 st.previousValue).1 t2 v2
        (ClipboardMonitor.handleClipboardChange st t1 v1 st.previousValue).1.previousValue).2 =
      none := by
  have hn1 : ¬ t1 - st.lastChangeTime < 500 := by omega
  constructor
  · simp [ClipboardMonitor.handleClipboardChange, hn1, hv]
  · simp [ClipboardMonitor.handleClipboardChange, hn1, hv, h2]

/-- Witness for C7's amended theorem at the concrete pair of changes. -/
theorem clipboard_min_interval_amended_witness :
    (500 ≤ (1000 : Int) - (⟨"", 0, 0⟩ : ClipboardMonitor.MonState).lastChangeTime) ∧
    ClipboardMonitor.isValidClipboardChange "abcd"
      (⟨"", 0, 0⟩ : ClipboardMonitor.MonState).previousValue = true ∧
    ((1200 : Int) - 1000 < 500) ∧
    ((ClipboardMonitor.handleClipboardChange ⟨"", 0, 0⟩ 1000 "abcd"
        (⟨"", 0, 0⟩ : ClipboardMonitor.MonState).previousValue).2 =
      some (ClipboardMonitor.mkChangeEvent 1000 "abcd"
        (⟨"", 0, 0⟩ : ClipboardMonitor.MonState).previousValue) ∧
      (ClipboardMonitor.handleClipboardChange
          (ClipboardMonitor.handleClipboardChange ⟨"", 0, 0⟩ 1000 "abcd"
            (⟨"", 0, 0⟩ : ClipboardMonitor.MonState).previousValue).1 1200 "wxyz"
          (ClipboardMonitor.handleClipboardChange ⟨"", 0, 0⟩ 1000 "abcd"
            (⟨"", 0, 0⟩ : ClipboardMonitor.MonState).previousValue).1.previousValue).2 =
        none) :=
  ⟨by decide, by decide, by decide,
    clipboard_min_interval_amended ⟨"", 0, 0⟩ 1000 1200 "abcd" "wxyz"
      (by decide) (by decide) (by decide)⟩

/-- C8.  `isSignificantChange` returns `true` for every pair of values —
its empty-previous, length-difference and type-change heuristics all sit
above a default branch that also returns `true` — and consequently every
constructed `ClipboardChangeEvent` carries `isSignificant = true`. -/
theorem significant_change_always_true :
    (∀ newValue oldValue, ClipboardMonitor.isSignificantChange newValue oldValue = true) ∧
    (∀ (now : Int) (newValue oldValue : String),
      (ClipboardMonitor.mkChangeEvent now newValue oldValue).isSignificant = true) := by
  have h : ∀ newValue oldValue,
      ClipboardMonitor.isSignificantChange newValue oldValue = true := by
    intro n o
    simp only [ClipboardMonitor.isSignificantChange]
    split_ifs <;> rfl
  exact ⟨h, fun now n o => h n o⟩

theorem adaptive_hcc_isPaused (st : AdaptiveClipboardMonitor.MonState) (now : Int)
    (n o : String) :
    (AdaptiveClipboardMonitor.handleClipboardChange st now n o).isPaused = st.isPaused := by
  simp only [AdaptiveClipboardMonitor.handleClipboardChange]
  split_ifs <;> rfl

theorem adaptive_hcc_lastActivityTime (st : AdaptiveClipboardMonitor.MonState) (now : Int)
    (n o : String) :
    (AdaptiveClipboardMonitor.handleClipboardChange st now n o).lastActivityTime =
      st.lastActivityTime := by
  simp only [AdaptiveClipboardMonitor.handleClipboardChange]
  split_ifs <;> rfl

theorem adaptive_cpm_isPaused (st : AdaptiveClipboardMonitor.MonState) (now : Int) :
    (AdaptiveClipboardMonitor.calculatePerformanceMetrics st now).1.isPaused = st.isPaused := by
  simp only [AdaptiveClipboardMonitor.calculatePerformanceMetrics]
  split_ifs <;> rfl

theorem adaptive_cpm_lastActivityTime (st : AdaptiveClipboardMonitor.MonState) (now : Int) :
    (AdaptiveClipboardMonitor.calculatePerformanceMetrics st now).1.lastActivityTime =
      st.lastActivityTime := by
  simp only [AdaptiveClipboardMonitor.calculatePerformanceMetrics]
  split_ifs <;> rfl

theorem adaptive_cpm_events (st : AdaptiveClipboardMonitor.MonState) (now : Int) :
    ∀ e ∈ (AdaptiveClipboardMonitor.calculatePerformanceMetrics st now).2,
      e = AdaptiveClipboardMonitor.MonEvent.performanceMetrics := by
  simp only [AdaptiveClipboardMonitor.calculatePerformanceMetrics]
  split_ifs <;> simp

theorem adaptive_uai_isPaused (st : AdaptiveClipboardMonitor.MonState) (now : Int) :
    (AdaptiveClipboardMonitor.updateAdaptiveInterval st now).1.isPaused = st.isPaused := by
  simp only [AdaptiveClipboardMonitor.updateAdaptiveInterval]
  split_ifs <;> rfl

theorem adaptive_uai_events (st : AdaptiveClipboardMonitor.MonState) (now : Int) :
    ∀ e ∈ (AdaptiveClipboardMonitor.updateAdaptiveInterval st now).2,
      e = AdaptiveClipboardMonitor.MonEvent.adaptiveIntervalUpdated := by
  simp only [AdaptiveClipboardMonitor.updateAdaptiveInterval]
  split_ifs <;> simp

theorem adaptive_optimize_no_transition (st : AdaptiveClipboardMonitor.MonState) (now : Int)
    (hp : st.isPaused = false) (ha : st.lastActivityTime = now) :
    (AdaptiveClipboardMonitor.optimizePolling st now).1.isPaused = false ∧
    (∀ e ∈ (AdaptiveClipboardMonitor.optimizePolling st now).2,
      e = AdaptiveClipboardMonitor.MonEvent.performanceMetrics ∨
      e = AdaptiveClipboardMonitor.MonEvent.adaptiveIntervalUpdated) := by
  have h1p := adaptive_cpm_isPaused st now
  have h1a := adaptive_cpm_lastActivityTime st now
  rw [hp] at h1p
  rw [ha] at h1a
  simp only [AdaptiveClipboardMonitor.optimizePolling]
  have hpause : ¬ (¬ (AdaptiveClipboardMonitor.calculatePerformanceMetrics st now).1.isPaused ∧
      30000 < now - (AdaptiveClipboardMonitor.calculatePerformanceMetrics st now).1.lastActivityTime) := by
    rintro ⟨-, hlt⟩
    rw [h1a] at hlt
    omega
  rw [if_neg hpause]
  have hresume : ¬ ((AdaptiveClipboardMonitor.calculatePerformanceMetrics st now).1.isPaused ∧
      now - (AdaptiveClipboardMonitor.calculatePerformanceMetrics st now).1.lastActivityTime < 5000) := by
    rintro ⟨hpp, -⟩
    rw [h1p] at hpp
    exact absurd hpp (by simp)
  rw [if_neg hresume]
  constructor
  · split_ifs with he
    · rw [adaptive_uai_isPaused]
      exact h1p
    · exact h1p
  · intro e he
    simp only [List.append_nil, List.nil_append, List.mem_append] at he
    rcases he with he | he
    · exact Or.inl (adaptive_cpm_events st now e he)
    · split_ifs at he with hen
      · exact Or.inr (adaptive_uai_events _ now e he)
      · simp at he

theorem adaptive_pollBody_isPaused (st : AdaptiveClipboardMonitor.MonState) (now : Int)
    (v : String) :
    (AdaptiveClipboardMonitor.pollBodyState st now v).isPaused = st.isPaused := by
  simp only [AdaptiveClipboardMonitor.pollBodyState]
  split_ifs with hc
  · rw [adaptive_hcc_isPaused]
  · rfl

theorem adaptive_pollBody_lastActivityTime (st : AdaptiveClipboardMonitor.MonState)
    (now : Int) (v : String) :
    (AdaptiveClipboardMonitor.pollBodyState st now v).lastActivityTime = now := by
  simp only [AdaptiveClipboardMonitor.pollBodyState]
  split_ifs with hc
  · rw [adaptive_hcc_lastActivityTime]
  · rfl

/-- C9.  The pause/resume machinery of the adaptive monitor can never act
through its poll loop: (i) a paused monitor's poll tick returns at the
top-of-tick paused check without changing any state or emitting any event
— in particular `optimizePolling`, the only place the paused flag is
cleared and `monitoring-resumed` is emitted, is unreachable while paused,
so a paused monitor never resumes; and (ii) an unpaused tick can never
pause either, because the tick refreshes `lastActivityTime` to the tick's
own time before `optimizePolling` compares it against the 30s inactivity
threshold, so neither `monitoring-paused` nor `monitoring-resumed` is ever
emitted by polling. -/
theorem monitor_pause_resume_never_fires :
    (∀ (st : AdaptiveClipboardMonitor.MonState) (now : Int) (v : String),
      st.isPaused = true → AdaptiveClipboardMonitor.pollClipboard st now v = (st, [])) ∧
    (∀ (st : AdaptiveClipboardMonitor.MonState) (now : Int) (v : String),
      st.isPaused = false →
      (AdaptiveClipboardMonitor.pollClipboard st now v).1.isPaused = false ∧
      AdaptiveClipboardMonitor.MonEvent.monitoringPaused ∉
        (AdaptiveClipboardMonitor.pollClipboard st now v).2 ∧
      AdaptiveClipboardMonitor.MonEvent.monitoringResumed ∉
        (AdaptiveClipboardMonitor.pollClipboard st now v).2) := by
  constructor
  · intro st now v h
    simp [AdaptiveClipboardMonitor.pollClipboard, h]
  · intro st now v h
    by_cases hrl : now - st.lastPollTime < 50
    · have heq : AdaptiveClipboardMonitor.pollClipboard st now v = (st, []) := by
        simp [AdaptiveClipboardMonitor.pollClipboard, h, hrl]
      rw [heq]
      exact ⟨h, by simp, by simp⟩
    · have heq : AdaptiveClipboardMonitor.pollClipboard st now v =
          ((AdaptiveClipboardMonitor.optimizePolling
              (AdaptiveClipboardMonitor.pollBodyState st now v) now).1,
            AdaptiveClipboardMonitor.MonEvent.polling ::
              (AdaptiveClipboardMonitor.optimizePolling
                (AdaptiveClipboardMonitor.pollBodyState st now v) now).2) := by
        simp [AdaptiveClipboardMonitor.pollClipboard, h, hrl]
      obtain ⟨ho1, ho2⟩ := adaptive_optimize_no_transition
        (AdaptiveClipboardMonitor.pollBodyState st now v) now
        ((adaptive_pollBody_isPaused st now v).trans h)
        (adaptive_pollBody_lastActivityTime st now v)
      rw [heq]
      refine ⟨ho1, ?_, ?_⟩
      · intro hmem
        rcases List.mem_cons.mp hmem with hc | hc
        · cases hc
        · rcases ho2 _ hc with he | he <;> cases he
      · intro hmem
        rcases List.mem_cons.mp hmem with hc | hc
        · cases hc
        · rcases ho2 _ hc with he | he <;> cases he

/-- Witness for C9 at a concrete monitor state, tick time and clipboard value. -/
theorem monitor_pause_resume_never_fires_witness :
    ((exampleMonState true).isPaused = true ∧
      AdaptiveClipboardMonitor.pollClipboard (exampleMonState true) 100 "copied text" =
        (exampleMonState true, [])) ∧
    ((exampleMonState false).isPaused = false ∧
      (AdaptiveClipboardMonitor.pollClipboard (exampleMonState false) 100 "copied text").1.isPaused =
        false ∧
      AdaptiveClipboardMonitor.MonEvent.monitoringPaused ∉
        (AdaptiveClipboardMonitor.pollClipboard (exampleMonState false) 100 "copied text").2 ∧
      AdaptiveClipboardMonitor.MonEvent.monitoringResumed ∉
        (AdaptiveClipboardMonitor.pollClipboard (exampleMonState false) 100 "copied text").2) :=
  ⟨⟨rfl, monitor_pause_resume_never_fires.1 (exampleMonState true) 100 "copied text" rfl⟩,
    ⟨rfl, monitor_pause_resume_never_fires.2 (exampleMonState false) 100 "copied text" rfl⟩⟩

theorem containsSub_single_iff (hay : List Char) (c : Char) :
    containsSub hay [c] = true ↔ c ∈ hay := by
  induction hay with
  | nil => simp [containsSub, List.isPrefixOf]
  | cons a t ih =>
    rw [containsSub]
    by_cases hca : c = a
    · subst hca
      simp [List.isPrefixOf]
    · have hpre : ([c].isPrefixOf (a :: t)) = false := by
        simp [List.isPrefixOf, hca]
      rw [hpre]
      simp only [Bool.false_eq_true, if_false, List.mem_cons]
      rw [ih]
      constructor
      · exact Or.inr
      · rintro (he | he)
        · exact absurd he hca
        · exact he

/-- C10, counterexample.  The claim says API key format validation,
wherever it is performed, accepts a key only if it has the required "AI"
start and passes the character whitelist.  The Gemini client's
`validateApiKeyFormat` accepts a 20-character key of x's that neither
starts with "AI" nor would need to pass any character check — it only
checks non-emptiness and trimmed length. -/
theorem api_key_format_validation_cex :
    GeminiService.validateApiKeyFormat "xxxxxxxxxxxxxxxxxxxx" = true ∧
    jsStartsWith (jsTrim "xxxxxxxxxxxxxxxxxxxx") "AI" = false := by
  refine ⟨?_, ?_⟩ <;> decide

/-- C10, amended.  The two format validators differ: the Vault's
`validateApiKeyFormat` accepts exactly the keys of trimmed length at least
20 that start with "AI" and consist only of letters, digits, underscore
and hyphen, while the Gemini client's `validateApiKeyFormat` checks only
that the key is non-empty with trimmed length at least 20.  Both are pure
functions of the candidate string — neither performs a network call; the
live round-trip against the model-listing endpoint is the separate
`testApiKeyAgainstGemini`, consulted by `storeApiKey` only when its
`testAgainstApi` option is set (modelled by the `testAgainstApi`/`apiTestOk`
parameters of the embedded `storeApiKey`). -/
theorem api_key_format_validation_amended :
    (∀ s, (SecureStorage.validateApiKeyFormat s).isValid = true ↔
      (20 ≤ jsLength (jsTrim s) ∧ jsStartsWith (jsTrim s) "AI" = true ∧
        (jsTrim s).data.all SecureStorage.isKeyChar = true)) ∧
    (∀ s, GeminiService.validateApiKeyFormat s = true ↔
      (s ≠ "" ∧ 20 ≤ jsLength (jsTrim s))) := by
  constructor
  · intro s
    constructor
    · intro h
      simp only [SecureStorage.validateApiKeyFormat] at h
      split_ifs at h with h1 h2 h3 h4 h5 <;>
        exact ⟨by omega, h3, h4.2⟩
    · rintro ⟨hlen, hAI, hall⟩
      have hs : s ≠ "" := by
        intro he
        subst he
        exact absurd hlen (by decide)
      have hnonempty : (jsTrim s).data.isEmpty = false := by
        cases hb : (jsTrim s).data.isEmpty
        · rfl
        · exfalso
          rw [List.isEmpty_iff] at hb
          have h0 : jsLength (jsTrim s) = 0 := by simp [jsLength, hb]
          omega
      have hspace : jsIncludes (jsTrim s) " " = false := by
        cases hb : jsIncludes (jsTrim s) " "
        · rfl
        · exfalso
          have hcs : containsSub (jsTrim s).data [' '] = true := hb
          have hmem : (' ' : Char) ∈ (jsTrim s).data :=
            (containsSub_single_iff (jsTrim s).data ' ').mp hcs
          have hk := List.all_eq_true.mp hall ' ' hmem
          exact absurd hk (by decide)
      simp only [SecureStorage.validateApiKeyFormat]
      rw [if_neg hs, if_neg (show ¬ jsLength (jsTrim s) < 20 by omega),
        if_neg (not_not.mpr hAI),
        if_neg (not_not.mpr ⟨by simp [hnonempty], hall⟩),
        if_neg (show ¬ jsIncludes (jsTrim s) " " = true by simp [hspace])]
  · intro s
    simp only [GeminiService.validateApiKeyFormat]
    split_ifs with h1 h2
    · simp [h1]
    · constructor
      · intro hc
        cases hc
      · rintro ⟨-, hlen⟩
        omega
    · simp only [true_iff]
      exact ⟨h1, by omega⟩
